import Mathlib

/-!
Shallow embedding of the multi-tier alt-text inference engine and the
layout-tree parser of the flutter-accessibility-checker repository
(src/data/enhanced_rule_engine.py and src/data/complete_accessibility_system.py),
together with theorems checking the specification's claims against it.

Conventions of the embedding:
- Python strings are Lean `String`s; all primitive operations (substring test,
  lower-casing, splitting, stripping) are implemented over the character list
  `String.data`, matching Python's code-point semantics for the ASCII inputs
  the program manipulates.
- Python dicts (the rule tables, loaded from JSON objects) are association
  lists in insertion order; a real dict has pairwise distinct keys.
- Python `None`-or-string results are `Option String`; a function that can
  raise an uncaught `IndexError` (indexing `[0]` on an empty candidate list)
  returns an outer `Option` whose `none` models the raised exception.
- Floats only occur as the fixed confidence literals (1.0, 0.95, 0.8, 0.7,
  0.6, 0.5, 0.4, 0.3, 0.1) and comparisons among them; these are exact in
  binary-respecting order, so scores are modelled as rationals.
-/

/-- `isPrefList p s`: the character list `p` is a prefix of `s`
(Python `str.startswith`). -/
def isPrefList : List Char → List Char → Bool
  | [], _ => true
  | _ :: _, [] => false
  | a :: as, b :: bs => a == b && isPrefList as bs

/-- `isInfList p s`: the character list `p` occurs contiguously in `s`
(Python's `p in s` on strings; the empty list occurs in everything). -/
def isInfList : List Char → List Char → Bool
  | p, [] => p.isEmpty
  | p, s@(_ :: rest) => isPrefList p s || isInfList p rest

/-- Python `needle in hay` on strings. -/
def pyIn (needle hay : String) : Bool :=
  isInfList needle.data hay.data

/-- Python `str.lower()` (ASCII case folding, as used by the program). -/
def pyLower (s : String) : String :=
  String.mk (s.data.map Char.toLower)

/-- Whitespace characters recognised by Python `str.strip()` / `str.split()`
(the ASCII ones; the program only manipulates ASCII markup and rules). -/
def isPySpace (c : Char) : Bool :=
  c == ' ' || c == '\t' || c == '\n' || c == '\r' || c == '\x0b' || c == '\x0c'

/-- Python `str.strip()` with no argument: drop leading and trailing
whitespace. -/
def pyStrip (s : String) : String :=
  String.mk (((s.data.dropWhile isPySpace).reverse.dropWhile isPySpace).reverse)

/-- Helper for `pyWords`: split a character list on whitespace runs,
accumulating the current (reversed) word. -/
def wordsAux : List Char → List Char → List (List Char)
  | cur, [] => if cur.isEmpty then [] else [cur.reverse]
  | cur, c :: cs =>
    if isPySpace c then
      if cur.isEmpty then wordsAux [] cs else cur.reverse :: wordsAux [] cs
    else wordsAux (c :: cur) cs

/-- Python `str.split()` with no argument: whitespace-delimited words,
with no empty words. -/
def pyWords (s : String) : List String :=
  (wordsAux [] s.data).map String.mk

/-- Python `"sep".join(parts)` for the single space separator. -/
def joinSpace (parts : List String) : String :=
  String.intercalate " " parts

/-- `class_name.split('.')[-1]`: the last dot-separated segment of a name
(the whole name when it has no dot). -/
def lastSeg (s : String) : String :=
  String.mk (((s.data.splitOn '.').getLast?).getD [])

/-- Ordered-dict lookup: first value stored under key `k`
(Python `d[k]` / `d.get(k)` on a dict modelled as an association list
in insertion order). -/
def dget {α : Type} (m : List (String × α)) (k : String) : Option α :=
  match m with
  | [] => none
  | (p, v) :: rest => if p = k then some v else dget rest k

/-- Python truthiness of an `Optional[str]` value: `None` and the empty
string are falsy. -/
def pyTruthyOpt : Option String → Bool
  | none => false
  | some s => s != ""

/-- The `UIElement` dataclass of src/data/enhanced_rule_engine.py, lines 8-21,
with the same defaults. -/
structure UIElement where
  resource_id : String
  class_name : String
  text : String := ""
  content_description : String := ""
  bounds : String := ""
  clickable : Bool := false
  focusable : Bool := false
  enabled : Bool := true
  parent_context : String := ""
  sibling_context : String := ""
  app_context : String := ""
deriving DecidableEq, Repr

/-- A JSON-object rule table: string keys in insertion order, each mapped to
an ordered list of candidate strings. -/
abbrev RuleMap := List (String × List String)

/-- The six table fields initialised by
`EnhancedAccessibilityRuleEngine.__init__` (lines 26-35); `context_rules` is
initialised but never loaded or read. -/
structure RuleTables where
  resource_rules : RuleMap := []
  class_rules : RuleMap := []
  text_pattern_rules : RuleMap := []
  app_specific_rules : RuleMap := []
  action_rules : List (String × Nat) := []
  context_rules : RuleMap := []
deriving DecidableEq, Repr

/-- Strict lexicographic order on `(len(pattern), pattern)` pairs, as Python
compares the tuples `(len(pattern), pattern, alternatives)` built by
`_match_resource_id` (the third component is never reached because dict keys
are distinct). Python compares strings lexicographically by code point,
which is the list order on the strings' character lists. -/
def keyLtP (a b : Nat × String) : Prop :=
  a.1 < b.1 ∨ (a.1 = b.1 ∧ a.2.data < b.2.data)

instance (a b : Nat × String) : Decidable (keyLtP a b) := by
  unfold keyLtP; infer_instance

/-- The triples `(len(pattern), pattern, alternatives)` collected by the
partial-match loop of `_match_resource_id` (lines 116-121), in table
iteration order. -/
def matchTriples (rules : RuleMap) (resource_id : String) : List (Nat × String × List String) :=
  rules.filterMap (fun pr =>
    if pyIn (pyLower pr.1) (pyLower resource_id) then some (pr.1.length, pr.1, pr.2) else none)

/-- The head of `matching_patterns.sort(reverse=True)` (line 124) followed by
`matching_patterns[0]` (line 125): Python's stable descending sort puts first
the earliest element that no other element strictly exceeds under the tuple
order, which this fold computes directly. -/
def firstMax? : List (Nat × String × List String) → Option (Nat × String × List String)
  | [] => none
  | x :: xs =>
    match firstMax? xs with
    | none => some x
    | some b => if keyLtP (x.1, x.2.1) (b.1, b.2.1) then some b else some x

/-- `_match_resource_id` (lines 109-127). Outer `none` models the
`IndexError` raised by `[0]` on an empty candidate list. -/
def match_resource_id (rules : RuleMap) (resource_id : String) : Option (Option String) :=
  match dget rules resource_id with
  | some alts =>
    match alts.head? with
    | some a => some (some a)
    | none => none
  | none =>
    match firstMax? (matchTriples rules resource_id) with
    | none => some none
    | some t =>
      match t.2.2.head? with
      | some a => some (some a)
      | none => none

/-- `_match_app_context` (lines 129-140): first app key that is a substring of
`app_context`; its rules' head, or Python `None` when that list is empty
(`rules[0] if rules else None`). Never raises. -/
def match_app_context (appRules : RuleMap) (e : UIElement) : Option String :=
  if e.app_context = "" then none
  else
    match appRules.find? (fun pr => pyIn pr.1 e.app_context) with
    | none => none
    | some pr => pr.2.head?

/-- `_match_text_pattern` (lines 142-164): direct pattern containment in the
lowered text, else the action-word search. The `patterns[0]` on line 162 is
guarded by `any(...)`, so it never raises. -/
def match_text_pattern (tpr : RuleMap) (ar : List (String × Nat)) (text : String) : Option String :=
  if text = "" then none
  else
    let tl := pyLower text
    match tpr.findSome? (fun pr => pr.2.find? (fun p => pyIn (pyLower p) tl)) with
    | some r => some r
    | none =>
      (pyWords tl).findSome? (fun w =>
        if (dget ar w).isSome then
          tpr.findSome? (fun pr =>
            if pr.2.any (fun p => pyIn w (pyLower p)) then pr.2.head? else none)
        else none)

/-- `_match_class_name` (lines 166-183): exact key, then simple
(last-segment) key, then first table key contained in the lowered class name.
Outer `none` models the `IndexError` of `[0]` on an empty candidate list. -/
def match_class_name (crules : RuleMap) (class_name : String) : Option (Option String) :=
  match dget crules class_name with
  | some alts =>
    match alts.head? with
    | some a => some (some a)
    | none => none
  | none =>
    match dget crules (lastSeg class_name) with
    | some alts =>
      match alts.head? with
      | some a => some (some a)
      | none => none
    | none =>
      match crules.find? (fun pr => pyIn (pyLower pr.1) (pyLower class_name)) with
      | none => some none
      | some pr =>
        match pr.2.head? with
        | some a => some (some a)
        | none => none

/-- `_infer_from_context` (lines 185-203): the combined lowered
parent+sibling context string, searched like `_match_text_pattern`'s two
phases but with action words taken from the table itself. Never raises. -/
def infer_from_context (tpr : RuleMap) (ar : List (String × Nat)) (e : UIElement) : Option String :=
  let ctx := pyLower (e.parent_context ++ " " ++ e.sibling_context)
  match tpr.findSome? (fun pr => pr.2.find? (fun p => pyIn (pyLower p) ctx)) with
  | some r => some r
  | none =>
    ar.findSome? (fun wc =>
      if pyIn wc.1 ctx then
        tpr.findSome? (fun pr =>
          if pr.2.any (fun p => pyIn wc.1 (pyLower p)) then pr.2.head? else none)
      else none)

/-- `_get_default_alt_text` (lines 205-226). -/
def get_default_alt_text (e : UIElement) : String :=
  let cn := pyLower e.class_name
  if pyIn "button" cn then "버튼"
  else if pyIn "image" cn then "이미지"
  else if pyIn "edittext" cn then "입력 필드"
  else if pyIn "textview" cn then "텍스트"
  else if pyIn "checkbox" cn then "체크박스"
  else if pyIn "radio" cn then "라디오 버튼"
  else if pyIn "switch" cn then "스위치"
  else if pyIn "seekbar" cn then "슬라이더"
  else "UI 요소"

/-- One tier step of `generate_alt_text`: `alt_text = tier(); if alt_text:
return alt_text` — a raised exception propagates, a `None` or empty-string
result falls through to the continuation. -/
def andThenTier (r : Option (Option String)) (k : Unit → Option String) : Option String :=
  match r with
  | none => none
  | some (some s) => if s = "" then k () else some s
  | some none => k ()

/-- `generate_alt_text` (lines 70-107): the seven label tiers with Python
truthiness on each tier's result. `none` models an uncaught `IndexError`
raised inside a tier. -/
def generate_alt_text (T : RuleTables) (e : UIElement) : Option String :=
  if e.content_description ≠ "" ∧ pyStrip e.content_description ≠ "" then
    some e.content_description
  else
    andThenTier (if e.resource_id ≠ "" then match_resource_id T.resource_rules e.resource_id else some none) (fun _ =>
    andThenTier (some (if e.app_context ≠ "" then match_app_context T.app_specific_rules e else none)) (fun _ =>
    andThenTier (some (if e.text ≠ "" then match_text_pattern T.text_pattern_rules T.action_rules e.text else none)) (fun _ =>
    andThenTier (if e.class_name ≠ "" then match_class_name T.class_rules e.class_name else some none) (fun _ =>
    andThenTier (some (infer_from_context T.text_pattern_rules T.action_rules e)) (fun _ =>
    some (get_default_alt_text e))))))

/-- Accumulator form of `dict.fromkeys`-style deduplication: keep each string
the first time it is seen (`seen` holds the keys already emitted). -/
def pyDedupAux (seen : List String) : List String → List String
  | [] => []
  | x :: xs =>
    if x ∈ seen then pyDedupAux seen xs
    else x :: pyDedupAux (seen ++ [x]) xs

/-- `dict.fromkeys`-style deduplication (line 247): keep the first occurrence
of each string, in order. -/
def pyDedup (l : List String) : List String :=
  pyDedupAux [] l

/-- The concatenation of the three candidate sources of `get_alternatives`
(lines 230-244): the exact resource-id entry and the exact class entry, each
only when the corresponding element field is truthy, then all app-rule lists
whose key occurs in a truthy `app_context`. -/
def alternatives_sources (T : RuleTables) (e : UIElement) : List String :=
  (if e.resource_id ≠ "" then (dget T.resource_rules e.resource_id).getD [] else [])
    ++ (if e.class_name ≠ "" then (dget T.class_rules e.class_name).getD [] else [])
    ++ (if e.app_context ≠ "" then
          ((T.app_specific_rules.filter (fun pr => pyIn pr.1 e.app_context)).map
            (fun pr => pr.2)).flatten
        else [])

/-- `get_alternatives` (lines 228-248): deduplicate preserving first-seen
order, truncate to 5. -/
def get_alternatives (T : RuleTables) (e : UIElement) : List String :=
  (pyDedup (alternatives_sources T e)).take 5

/-- `get_matching_confidence` (lines 250-283): the independent confidence
pass with its own early exits and Python truthiness tests. -/
def get_matching_confidence (T : RuleTables) (e : UIElement) : String × ℚ :=
  if e.content_description ≠ "" then ("content_description", 1)
  else if e.resource_id ≠ "" ∧ (dget T.resource_rules e.resource_id).isSome then
    ("resource_id_exact", 19/20)
  else if e.resource_id ≠ "" ∧
      T.resource_rules.any (fun pr => pyIn (pyLower pr.1) (pyLower e.resource_id)) then
    ("resource_id_partial", 4/5)
  else if e.app_context ≠ "" ∧ T.app_specific_rules.any (fun pr => pyIn pr.1 e.app_context) then
    ("app_context", 7/10)
  else if e.text ≠ "" ∧
      pyTruthyOpt (match_text_pattern T.text_pattern_rules T.action_rules e.text) then
    ("text_pattern", 3/5)
  else if e.class_name ≠ "" ∧ (dget T.class_rules e.class_name).isSome then
    ("class_name_exact", 1/2)
  else if e.class_name ≠ "" ∧ (dget T.class_rules (lastSeg e.class_name)).isSome then
    ("class_name_simple", 2/5)
  else if pyTruthyOpt (infer_from_context T.text_pattern_rules T.action_rules e) then
    ("context_inference", 3/10)
  else ("default", 1/10)

/-- A parsed markup tree node: tag, attribute map (document order), children
(document order). This is the tree `xml.etree` hands to
src/data/complete_accessibility_system.py; node identity is positional. -/
inductive XNode where
  | mk (tag : String) (attrs : List (String × String)) (children : List XNode)

def XNode.tag : XNode → String
  | .mk t _ _ => t

def XNode.attrs : XNode → List (String × String)
  | .mk _ a _ => a

def XNode.children : XNode → List XNode
  | .mk _ _ c => c

/-- `element.get(key, default)`. -/
def xget (n : XNode) (k d : String) : String :=
  (dget n.attrs k).getD d

/-- `_normalize_resource_id` of src/data/complete_accessibility_system.py,
lines 102-110: both the `@+id/` and the `@id/` branch slice off five
characters. -/
def normalize_resource_id (resource_id : String) : String :=
  if resource_id = "" then ""
  else if isPrefList "@+id/".data resource_id.data || isPrefList "@id/".data resource_id.data then
    String.mk (resource_id.data.drop 5)
  else resource_id

/-- The fixed UI-class allow-list of `_is_ui_element` (lines 90-100). -/
def uiClasses : List String :=
  ["Button", "ImageButton", "TextView", "EditText", "ImageView",
   "CheckBox", "RadioButton", "Switch", "SeekBar", "ToggleButton",
   "FloatingActionButton", "Toolbar", "BottomNavigationView",
   "TabLayout", "RecyclerView", "ListView", "Spinner", "ProgressBar"]

/-- `_is_ui_element` (lines 90-100): simple class name in the allow-list. -/
def is_ui_element (n : XNode) : Bool :=
  uiClasses.contains (lastSeg n.tag)

/-- The per-sibling formatting of `_get_sibling_context` (lines 127-138):
`class:text` when text is present, else `class:id` when the normalized id is
present, else the bare simple class name. -/
def fmtSibling (s : XNode) : String :=
  let sid := normalize_resource_id (xget s "android:id" "")
  let scls := lastSeg s.tag
  let stext := xget s "android:text" ""
  if stext ≠ "" then scls ++ ":" ++ stext
  else if sid ≠ "" then scls ++ ":" ++ sid
  else scls

/-- `_get_parent_context` (lines 112-119): always `class:id` for a present
parent (the colon is emitted even for an empty id, and the parent's text is
never consulted); empty string at the root. -/
def parent_context_of : Option XNode → String
  | some p => lastSeg p.tag ++ ":" ++ normalize_resource_id (xget p "android:id" "")
  | none => ""

/-- `_get_sibling_context` (lines 121-140): all children of the parent except
the element itself (identity, modelled by the child index), formatted and
space-joined in document order; empty string at the root. -/
def sibling_context_of : Option (XNode × Nat) → String
  | none => ""
  | some (p, i) =>
    joinSpace (((p.children.enum.filter (fun z => z.1 != i)).map (fun z => fmtSibling z.2)))

/-- `_parse_element` (lines 54-88); `pinfo` is the element's entry in the
parent map built by `_build_parent_relationships` (parent node and the
element's index among its children), `none` at the root.
`_extract_app_context` (lines 142-146) is the hard-coded constant. -/
def parse_element (pinfo : Option (XNode × Nat)) (n : XNode) : Option UIElement :=
  if is_ui_element n then
    some
      { resource_id := normalize_resource_id (xget n "android:id" "")
        class_name := n.tag
        text := xget n "android:text" ""
        content_description := xget n "android:contentDescription" ""
        clickable := pyLower (xget n "android:clickable" "false") == "true"
        focusable := pyLower (xget n "android:focusable" "false") == "true"
        enabled := pyLower (xget n "android:enabled" "true") == "true"
        parent_context := parent_context_of (pinfo.map (fun z => z.1))
        sibling_context := sibling_context_of pinfo
        app_context := "com.example.app.MainActivity" }
  else none

mutual
/-- `root.iter()` in document (preorder) order, each node paired with its
parent-map entry. -/
def iterNodes (n : XNode) (pinfo : Option (XNode × Nat)) :
    List (XNode × Option (XNode × Nat)) :=
  match n with
  | XNode.mk t a cs => (XNode.mk t a cs, pinfo) :: iterChildren (XNode.mk t a cs) 0 cs

/-- Children of `parent` starting at index `i`, iterated recursively. -/
def iterChildren (parent : XNode) (i : Nat) (cs : List XNode) :
    List (XNode × Option (XNode × Nat)) :=
  match cs with
  | [] => []
  | c :: rest => iterNodes c (some (parent, i)) ++ iterChildren parent (i + 1) rest
end

/-- One suggestion dict built by `_generate_suggestions` (lines 173-213). -/
structure SuggestionR where
  stype : String
  description : String
  current : String
  suggested : String
  confidence : ℚ
  priority : String
deriving DecidableEq, Repr

/-- `_generate_suggestions` (lines 173-213): an if/elif pair followed by an
independent clickable check. -/
def generate_suggestions (e : UIElement) (alt : String) (score : ℚ) : List SuggestionR :=
  (if e.content_description = "" then
    [{ stype := "missing_content_description"
       description := "contentDescription 속성이 없습니다."
       current := "없음", suggested := alt, confidence := score
       priority := if e.clickable then "high" else "medium" }]
   else if score > 7/10 then
    [{ stype := "improvement_suggestion"
       description := "더 명확한 접근성 텍스트로 개선할 수 있습니다."
       current := e.content_description, suggested := alt, confidence := score
       priority := "medium" }]
   else [])
  ++ (if e.clickable ∧ e.content_description = "" then
    [{ stype := "clickable_without_description"
       description := "클릭 가능한 요소에 접근성 설명이 필요합니다."
       current := "없음", suggested := alt, confidence := score
       priority := "high" }]
   else [])

/-- `_calculate_priority` (lines 215-222). -/
def calculate_priority (e : UIElement) (score : ℚ) : String :=
  if e.clickable ∧ score > 4/5 then "high"
  else if e.clickable ∨ score > 3/5 then "medium"
  else "low"

/-- One per-element result dict of `_generate_accessibility_result`
(lines 148-171). -/
structure AResult where
  resource_id : String
  class_name : String
  text : String
  current_content_description : String
  generated_alt_text : String
  alternatives : List String
  confidence_type : String
  confidence_score : ℚ
  clickable : Bool
  focusable : Bool
  enabled : Bool
  suggestions : List SuggestionR
  priority : String
deriving DecidableEq, Repr

/-- `_generate_accessibility_result` (lines 148-171); `none` models an
uncaught exception raised by `generate_alt_text`. -/
def generate_accessibility_result (T : RuleTables) (e : UIElement) : Option AResult :=
  match generate_alt_text T e with
  | none => none
  | some alt =>
    let c := get_matching_confidence T e
    some
      { resource_id := e.resource_id
        class_name := e.class_name
        text := e.text
        current_content_description := e.content_description
        generated_alt_text := alt
        alternatives := get_alternatives T e
        confidence_type := c.1
        confidence_score := c.2
        clickable := e.clickable
        focusable := e.focusable
        enabled := e.enabled
        suggestions := generate_suggestions e alt c.2
        priority := calculate_priority e c.2 }

/-- `analyze_xml_layout` (lines 15-39). Its argument is the outcome of the
external `ET.fromstring` call: `none` when the markup is malformed
(`ET.ParseError`), in which case the handler returns the empty list. An
exception raised later (the overall result `none`) is not caught. -/
def analyze_xml_layout (parsed : Option XNode) (T : RuleTables) : Option (List AResult) :=
  match parsed with
  | none => some []
  | some root =>
    ((iterNodes root none).filterMap (fun pr => parse_element pr.2 pr.1)).mapM
      (generate_accessibility_result T)

/-- One bucketed suggestion entry of `generate_report` (lines 237-256). -/
structure BucketEntry where
  resource_id : String
  stype : String
  suggested : String
  confidence : ℚ
deriving DecidableEq, Repr

/-- The summary block of `generate_report` (lines 258-264). -/
structure ReportSummary where
  total_elements : Nat
  elements_with_content_description : Nat
  elements_without_content_description : Nat
  coverage_percentage : ℚ
deriving DecidableEq, Repr

/-- The full report dict of `generate_report` (lines 224-275). -/
structure Report where
  summary : ReportSummary
  high_priority : List BucketEntry
  medium_priority : List BucketEntry
  low_priority : List BucketEntry
  high_priority_count : Nat
  medium_priority_count : Nat
  low_priority_count : Nat
deriving DecidableEq, Repr

/-- All suggestions of all results whose priority satisfies `p`, flattened in
result order, as bucket entries. -/
def bucketOf (results : List AResult) (p : String → Bool) : List BucketEntry :=
  (results.map (fun r =>
    (r.suggestions.filter (fun s => p s.priority)).map (fun s =>
      { resource_id := r.resource_id, stype := s.stype
        suggested := s.suggested, confidence := s.confidence : BucketEntry }))).flatten

/-- `generate_report` (lines 224-275): summary counts, the guarded coverage
percentage, and the three priority buckets. -/
def generate_report (results : List AResult) : Report :=
  let total := results.length
  let withCd := (results.filter (fun r => r.current_content_description != "")).length
  let hi := bucketOf results (fun p => p == "high")
  let med := bucketOf results (fun p => p == "medium")
  let lo := bucketOf results (fun p => p != "high" && p != "medium")
  { summary :=
      { total_elements := total
        elements_with_content_description := withCd
        elements_without_content_description := total - withCd
        coverage_percentage := if total > 0 then (withCd : ℚ) / (total : ℚ) * 100 else 0 }
    high_priority := hi
    medium_priority := med
    low_priority := lo
    high_priority_count := hi.length
    medium_priority_count := med.length
    low_priority_count := lo.length }

/-- The five rule files `load_rules` (lines 37-68) tries to open, in program
order; `none` means the file is absent (or otherwise fails to open/parse). -/
structure RuleFiles where
  resource_id_rules : Option RuleMap := none
  class_name_rules : Option RuleMap := none
  text_pattern_rules : Option RuleMap := none
  app_specific_rules : Option RuleMap := none
  action_rules : Option (List (String × Nat)) := none
deriving DecidableEq, Repr

/-- `load_rules` (lines 37-68): the five sequential loads share one
try/except, so the first failing file aborts the whole sequence; tables
assigned before the failure keep their contents, the rest stay at the empty
initial value from `__init__`. -/
def load_rules (fs : RuleFiles) : RuleTables :=
  match fs.resource_id_rules with
  | none => {}
  | some rr =>
    match fs.class_name_rules with
    | none => { resource_rules := rr }
    | some cr =>
      match fs.text_pattern_rules with
      | none => { resource_rules := rr, class_rules := cr }
      | some tr =>
        match fs.app_specific_rules with
        | none => { resource_rules := rr, class_rules := cr, text_pattern_rules := tr }
        | some apr =>
          match fs.action_rules with
          | none =>
            { resource_rules := rr, class_rules := cr, text_pattern_rules := tr
              app_specific_rules := apr }
          | some acr =>
            { resource_rules := rr, class_rules := cr, text_pattern_rules := tr
              app_specific_rules := apr, action_rules := acr }

/-! ### Helper lemmas about the embedded operations -/

theorem keyLtP_irrefl (a : Nat × String) : ¬ keyLtP a a := by
  rintro (h | ⟨-, h⟩)
  · exact Nat.lt_irrefl _ h
  · exact lt_irrefl _ h

theorem keyLtP_trans {a b c : Nat × String} (h1 : keyLtP a b) (h2 : keyLtP b c) :
    keyLtP a c := by
  rcases h1 with h1 | ⟨h1e, h1s⟩ <;> rcases h2 with h2 | ⟨h2e, h2s⟩
  · exact Or.inl (Nat.lt_trans h1 h2)
  · exact Or.inl (h2e ▸ h1)
  · exact Or.inl (h1e ▸ h2)
  · exact Or.inr ⟨h1e.trans h2e, lt_trans h1s h2s⟩

theorem keyLtP_asymm {a b : Nat × String} (h : keyLtP a b) : ¬ keyLtP b a :=
  fun h2 => keyLtP_irrefl a (keyLtP_trans h h2)

theorem keyLtP_trichotomy (a b : Nat × String) : keyLtP a b ∨ a = b ∨ keyLtP b a := by
  rcases Nat.lt_trichotomy a.1 b.1 with h | h | h
  · exact Or.inl (Or.inl h)
  · rcases lt_trichotomy a.2.data b.2.data with h2 | h2 | h2
    · exact Or.inl (Or.inr ⟨h, h2⟩)
    · exact Or.inr (Or.inl (Prod.ext h (String.ext h2)))
    · exact Or.inr (Or.inr (Or.inr ⟨h.symm, h2⟩))
  · exact Or.inr (Or.inr (Or.inl h))

theorem firstMax?_eq_none {l : List (Nat × String × List String)}
    (h : firstMax? l = none) : l = [] := by
  cases l with
  | nil => rfl
  | cons x xs =>
    exfalso
    simp only [firstMax?] at h
    cases hr : firstMax? xs with
    | none =>
      simp only [hr] at h
      exact Option.noConfusion h
    | some c =>
      simp only [hr] at h
      by_cases hlt : keyLtP (x.1, x.2.1) (c.1, c.2.1)
      · rw [if_pos hlt] at h
        exact Option.noConfusion h
      · rw [if_neg hlt] at h
        exact Option.noConfusion h

theorem firstMax?_isSome {l : List (Nat × String × List String)} (h : l ≠ []) :
    ∃ b, firstMax? l = some b := by
  cases hr : firstMax? l with
  | none => exact absurd (firstMax?_eq_none hr) h
  | some b => exact ⟨b, rfl⟩

theorem firstMax?_mem {l : List (Nat × String × List String)}
    {b : Nat × String × List String} (h : firstMax? l = some b) : b ∈ l := by
  induction l generalizing b with
  | nil => exact Option.noConfusion h
  | cons x xs ih =>
    simp only [firstMax?] at h
    cases hr : firstMax? xs with
    | none =>
      simp only [hr] at h
      cases h
      exact List.mem_cons_self _ _
    | some c =>
      simp only [hr] at h
      by_cases hlt : keyLtP (x.1, x.2.1) (c.1, c.2.1)
      · rw [if_pos hlt] at h
        cases h
        exact List.mem_cons_of_mem _ (ih hr)
      · rw [if_neg hlt] at h
        cases h
        exact List.mem_cons_self _ _

theorem firstMax?_not_lt {l : List (Nat × String × List String)}
    {b : Nat × String × List String} (h : firstMax? l = some b) :
    ∀ x ∈ l, ¬ keyLtP (b.1, b.2.1) (x.1, x.2.1) := by
  induction l generalizing b with
  | nil => exact Option.noConfusion h
  | cons x xs ih =>
    intro y hy
    simp only [firstMax?] at h
    cases hr : firstMax? xs with
    | none =>
      have hxs : xs = [] := firstMax?_eq_none hr
      simp only [hr] at h
      cases h
      rcases List.mem_cons.mp hy with hy | hy
      · subst hy; exact keyLtP_irrefl _
      · rw [hxs] at hy; exact absurd hy (List.not_mem_nil _)
    | some c =>
      simp only [hr] at h
      by_cases hlt : keyLtP (x.1, x.2.1) (c.1, c.2.1)
      · rw [if_pos hlt] at h
        cases h
        rcases List.mem_cons.mp hy with hy | hy
        · subst hy; exact keyLtP_asymm hlt
        · exact ih hr y hy
      · rw [if_neg hlt] at h
        cases h
        rcases List.mem_cons.mp hy with hy | hy
        · subst hy; exact keyLtP_irrefl _
        · intro hxy
          have hcy := ih hr y hy
          rcases keyLtP_trichotomy (x.1, x.2.1) (c.1, c.2.1) with h3 | h3 | h3
          · exact hlt h3
          · exact hcy (h3 ▸ hxy)
          · exact hcy (keyLtP_trans h3 hxy)

theorem dget_mem {α : Type} {m : List (String × α)} {k : String} {v : α}
    (h : dget m k = some v) : (k, v) ∈ m := by
  induction m with
  | nil => exact Option.noConfusion h
  | cons p rest ih =>
    obtain ⟨pk, pv⟩ := p
    simp only [dget] at h
    split at h
    · cases h
      rename_i he
      rw [he]
      exact List.mem_cons_self _ _
    · exact List.mem_cons_of_mem _ (ih h)

theorem pyDedupAux_sublist (l : List String) :
    ∀ seen, (pyDedupAux seen l).Sublist l := by
  induction l with
  | nil => intro seen; exact List.Sublist.refl _
  | cons x xs ih =>
    intro seen
    simp only [pyDedupAux]
    by_cases hx : x ∈ seen
    · rw [if_pos hx]
      exact (ih seen).cons x
    · rw [if_neg hx]
      exact List.Sublist.cons₂ x (ih (seen ++ [x]))

theorem pyDedupAux_nodup (l : List String) :
    ∀ seen, (pyDedupAux seen l).Nodup ∧ ∀ y ∈ pyDedupAux seen l, y ∉ seen := by
  induction l with
  | nil =>
    intro seen
    exact ⟨List.nodup_nil, by intro y hy; exact absurd hy (List.not_mem_nil _)⟩
  | cons x xs ih =>
    intro seen
    simp only [pyDedupAux]
    by_cases hx : x ∈ seen
    · rw [if_pos hx]
      exact ih seen
    · rw [if_neg hx]
      obtain ⟨ihn, ihs⟩ := ih (seen ++ [x])
      constructor
      · refine List.nodup_cons.mpr ⟨?_, ihn⟩
        intro hmem
        exact ihs x hmem (List.mem_append.mpr (Or.inr (List.mem_singleton.mpr rfl)))
      · intro y hy
        rcases List.mem_cons.mp hy with hy | hy
        · exact hy ▸ hx
        · intro hys
          exact ihs y hy (List.mem_append.mpr (Or.inl hys))

theorem pyDedup_sublist (l : List String) : (pyDedup l).Sublist l :=
  pyDedupAux_sublist l []

theorem pyDedup_nodup (l : List String) : (pyDedup l).Nodup :=
  (pyDedupAux_nodup l []).1

theorem andThenTier_ne_none {r : Option (Option String)} {k : Unit → Option String}
    (hr : r ≠ none) (hk : k () ≠ none) : andThenTier r k ≠ none := by
  cases r with
  | none => exact absurd rfl hr
  | some o =>
    cases o with
    | none => simpa [andThenTier] using hk
    | some s =>
      simp only [andThenTier]
      split
      · exact hk
      · exact Option.noConfusion

theorem match_resource_id_ne_none (rules : RuleMap) (resource_id : String)
    (h : ∀ p alts, (p, alts) ∈ rules → alts ≠ []) :
    match_resource_id rules resource_id ≠ none := by
  unfold match_resource_id
  cases hd : dget rules resource_id with
  | some alts =>
    have hne := h resource_id alts (dget_mem hd)
    cases alts with
    | nil => exact absurd rfl hne
    | cons a as => simp
  | none =>
    cases hf : firstMax? (matchTriples rules resource_id) with
    | none => simp
    | some t =>
      have ht := firstMax?_mem hf
      rcases List.mem_filterMap.mp ht with ⟨pr, hpr, hif⟩
      have hIn : pyIn (pyLower pr.1) (pyLower resource_id) = true := by
        by_contra hc
        rw [Bool.not_eq_true] at hc
        rw [hc] at hif
        simp at hif
      rw [if_pos hIn] at hif
      cases hif
      have hne := h pr.1 pr.2 (by simpa using hpr)
      cases halts : pr.2 with
      | nil => exact absurd halts hne
      | cons a as => simp [halts]

theorem match_class_name_ne_none (crules : RuleMap) (class_name : String)
    (h : ∀ p alts, (p, alts) ∈ crules → alts ≠ []) :
    match_class_name crules class_name ≠ none := by
  unfold match_class_name
  cases hd : dget crules class_name with
  | some alts =>
    have hne := h class_name alts (dget_mem hd)
    cases alts with
    | nil => exact absurd rfl hne
    | cons a as => simp
  | none =>
    cases hd2 : dget crules (lastSeg class_name) with
    | some alts =>
      have hne := h (lastSeg class_name) alts (dget_mem hd2)
      cases alts with
      | nil => exact absurd rfl hne
      | cons a as => simp
    | none =>
      cases hf : crules.find? (fun pr => pyIn (pyLower pr.1) (pyLower class_name)) with
      | none => simp
      | some pr =>
        have hpr := List.mem_of_find?_eq_some hf
        have hne := h pr.1 pr.2 (by simpa using hpr)
        cases halts : pr.2 with
        | nil => exact absurd halts hne
        | cons a as => simp [halts]

/-! ### Claim theorems -/

/-- C1: for every element whose `content_description` is non-empty after
trimming whitespace, `generate_alt_text` returns exactly that string as the
label for any tables (so no further tier is consulted), and
`get_matching_confidence` reports tier `content_description` with score 1.0. -/
theorem c1_explicit_description (T : RuleTables) (e : UIElement)
    (h : pyStrip e.content_description ≠ "") :
    generate_alt_text T e = some e.content_description ∧
    get_matching_confidence T e = ("content_description", 1) := by
  have hcd : e.content_description ≠ "" := by
    intro hc
    apply h
    rw [hc]
    rfl
  constructor
  · unfold generate_alt_text
    rw [if_pos ⟨hcd, h⟩]
  · unfold get_matching_confidence
    rw [if_pos hcd]

/-- Witness for C1 at a concrete element with a padded description. -/
theorem c1_explicit_description_witness :
    pyStrip "  뒤로 가기  " ≠ "" ∧
    generate_alt_text ({} : RuleTables)
      { resource_id := "", class_name := "", content_description := "  뒤로 가기  " } =
      some "  뒤로 가기  " ∧
    get_matching_confidence ({} : RuleTables)
      { resource_id := "", class_name := "", content_description := "  뒤로 가기  " } =
      ("content_description", 1) := by
  have h := c1_explicit_description ({} : RuleTables)
    { resource_id := "", class_name := "", content_description := "  뒤로 가기  " }
    (by decide)
  exact ⟨by decide, h.1, h.2⟩

/-- C2: resource-id normalization at the failing input. The claim (and the
spec) state that a leading plain marker `@id/` is stripped to the bare
identifier, but `_normalize_resource_id` slices five characters for the
four-character `@id/` marker too, so `"@id/backBtn"` yields `"ackBtn"`, not
`"backBtn"`; the new-identifier marker `@+id/`, plain ids and the absent id
behave as claimed. -/
theorem c2_normalize_id_failing_input :
    normalize_resource_id "@+id/backBtn" = "backBtn" ∧
    normalize_resource_id "@id/backBtn" = "ackBtn" ∧
    normalize_resource_id "plainId" = "plainId" ∧
    normalize_resource_id "" = "" ∧
    ("ackBtn" : String) ≠ "backBtn" := by
  refine ⟨by decide, by decide, by decide, by decide, by decide⟩

/-- Tables for the C4 divergence scenario: only a class rule whose key
matches `MyButtonView` by substring, not exactly. -/
def c4ExampleTables : RuleTables :=
  { class_rules := [("Button", ["버튼클릭"])] }

/-- Element for the C4 divergence scenario. -/
def c4ExampleElement : UIElement :=
  { resource_id := "", class_name := "MyButtonView" }

/-- C4: label selection and confidence selection are independent passes that
can diverge: here the class-name tier (partial match) supplies the label
`"버튼클릭"`, while `get_matching_confidence` — which probes only exact and
simple class keys — falls through to tier `"default"` with score 0.1; the
label is not the default tier's label `"버튼"`. -/
theorem c4_two_pass_divergence :
    generate_alt_text c4ExampleTables c4ExampleElement = some "버튼클릭" ∧
    match_class_name c4ExampleTables.class_rules c4ExampleElement.class_name =
      some (some "버튼클릭") ∧
    get_matching_confidence c4ExampleTables c4ExampleElement = ("default", 1/10) ∧
    get_default_alt_text c4ExampleElement = "버튼" ∧
    ("버튼클릭" : String) ≠ "버튼" := by
  refine ⟨by decide, by decide, rfl, by decide, by decide⟩

/-- C7: for every malformed markup input (the external parse yields no tree),
`analyze_xml_layout` returns the empty result list without raising, and the
report over that empty list has `total_elements = 0` and coverage exactly 0. -/
theorem c7_malformed_input_safe (parse : String → Option XNode) (s : String)
    (T : RuleTables) (h : parse s = none) :
    analyze_xml_layout (parse s) T = some [] ∧
    (generate_report []).summary.total_elements = 0 ∧
    (generate_report []).summary.coverage_percentage = 0 := by
  rw [h]
  exact ⟨rfl, rfl, by decide⟩

/-- Witness for C7 at a concrete failing parse. -/
theorem c7_malformed_input_safe_witness :
    analyze_xml_layout ((fun _ : String => (none : Option XNode)) "<oops") ({} : RuleTables) =
      some [] ∧
    (generate_report []).summary.total_elements = 0 ∧
    (generate_report []).summary.coverage_percentage = 0 :=
  c7_malformed_input_safe (fun _ => none) "<oops" ({} : RuleTables) rfl

/-- C9: a non-empty but whitespace-only `content_description` makes
`get_matching_confidence` report tier `content_description` with the maximal
score 1.0 (it only tests truthiness), while `generate_alt_text` skips tier 1
(which also tests the stripped string) and computes the label exactly as it
would for an element with no description at all. -/
theorem c9_whitespace_only_description (T : RuleTables) (e : UIElement)
    (h1 : e.content_description ≠ "") (h2 : pyStrip e.content_description = "") :
    get_matching_confidence T e = ("content_description", 1) ∧
    generate_alt_text T e = generate_alt_text T { e with content_description := "" } := by
  constructor
  · unfold get_matching_confidence
    rw [if_pos h1]
  · unfold generate_alt_text
    rw [if_neg (show ¬(e.content_description ≠ "" ∧ pyStrip e.content_description ≠ "") from
      fun hc => hc.2 h2)]
    rw [if_neg (show ¬(({ e with content_description := "" } : UIElement).content_description ≠ ""
        ∧ pyStrip ({ e with content_description := "" } : UIElement).content_description ≠ "") from
      fun hc => hc.1 rfl)]
    rfl

/-- Element for the C9 witness: a three-space description on an otherwise
empty `ProgressBar` element. -/
def c9ExampleElement : UIElement :=
  { resource_id := "", class_name := "ProgressBar", content_description := "   " }

/-- Witness for C9 at `c9ExampleElement`. -/
theorem c9_whitespace_only_description_witness :
    get_matching_confidence ({} : RuleTables) c9ExampleElement = ("content_description", 1) ∧
    generate_alt_text ({} : RuleTables) c9ExampleElement =
      generate_alt_text ({} : RuleTables) { c9ExampleElement with content_description := "" } :=
  c9_whitespace_only_description ({} : RuleTables) c9ExampleElement (by decide) (by decide)

/-- Tables for the C3 tie-break counterexample: two equal-length keys, both
substrings of the element's id, with `"ab"` first in table iteration order. -/
def c3ExampleTables : RuleTables :=
  { resource_rules := [("ab", ["first"]), ("cd", ["second"])] }

/-- Element for the C3 tie-break counterexample. -/
def c3ExampleElement : UIElement :=
  { resource_id := "abcd", class_name := "" }

/-- C3 counterexample: the claim's tie-break ("ties broken by table iteration
order") predicts the label `"first"` from the earlier key `"ab"`, but
`sort(reverse=True)` on the `(length, key, value)` tuples orders equal-length
keys by descending string comparison, so the code selects `"cd"` and returns
`"second"`. -/
theorem c3_tie_break_counterexample :
    dget c3ExampleTables.resource_rules c3ExampleElement.resource_id = none ∧
    pyIn (pyLower "ab") (pyLower c3ExampleElement.resource_id) = true ∧
    pyIn (pyLower "cd") (pyLower c3ExampleElement.resource_id) = true ∧
    ("ab" : String).length = ("cd" : String).length ∧
    generate_alt_text c3ExampleTables c3ExampleElement = some "second" ∧
    (some "second" : Option String) ≠ some "first" := by
  refine ⟨by decide, by decide, by decide, by decide, by decide, by decide⟩

/-- C3 (amended): for an element with empty `content_description`, non-empty
`resource_id` that is no exact key, and at least one table key contained
(case-insensitively) in the id, the resource-id tier selects a matching key
that strictly dominates every other matching key in the lexicographic order
on `(length, key)` — i.e. the longest matching key, ties among equal lengths
broken towards the lexicographically greatest key, not towards table
iteration order — and returns that key's first candidate (which becomes the
label when it is a non-empty string). -/
theorem c3_longest_then_lex_greatest (T : RuleTables) (e : UIElement)
    (hcd : e.content_description = "")
    (hrid : e.resource_id ≠ "")
    (hnoexact : dget T.resource_rules e.resource_id = none)
    (p₀ : String) (alts₀ : List String)
    (hp₀ : (p₀, alts₀) ∈ T.resource_rules)
    (hm₀ : pyIn (pyLower p₀) (pyLower e.resource_id) = true) :
    ∃ q qalts, (q, qalts) ∈ T.resource_rules ∧
      pyIn (pyLower q) (pyLower e.resource_id) = true ∧
      (∀ r ralts, (r, ralts) ∈ T.resource_rules →
        pyIn (pyLower r) (pyLower e.resource_id) = true → r ≠ q →
        keyLtP (r.length, r) (q.length, q)) ∧
      match_resource_id T.resource_rules e.resource_id =
        (match qalts.head? with
         | some a => some (some a)
         | none => none) ∧
      ∀ a, qalts.head? = some a → a ≠ "" → generate_alt_text T e = some a := by
  have hmt : (p₀.length, p₀, alts₀) ∈ matchTriples T.resource_rules e.resource_id := by
    apply List.mem_filterMap.mpr
    exact ⟨(p₀, alts₀), hp₀, by rw [if_pos hm₀]⟩
  have hne : matchTriples T.resource_rules e.resource_id ≠ [] := by
    intro h0
    rw [h0] at hmt
    exact absurd hmt (List.not_mem_nil _)
  obtain ⟨t, hft⟩ := firstMax?_isSome hne
  have htm := firstMax?_mem hft
  rcases List.mem_filterMap.mp htm with ⟨pr, hpr, hif⟩
  have hIn : pyIn (pyLower pr.1) (pyLower e.resource_id) = true := by
    by_contra hc
    rw [Bool.not_eq_true] at hc
    rw [hc] at hif
    simp at hif
  rw [if_pos hIn] at hif
  have ht : t = (pr.1.length, pr.1, pr.2) := (Option.some.inj hif).symm
  have hmid : match_resource_id T.resource_rules e.resource_id =
      (match pr.2.head? with
       | some a => some (some a)
       | none => none) := by
    unfold match_resource_id
    rw [hnoexact, hft, ht]
  refine ⟨pr.1, pr.2, by simpa using hpr, hIn, ?_, hmid, ?_⟩
  · intro r ralts hr hrIn hne'
    have hmem : (r.length, r, ralts) ∈ matchTriples T.resource_rules e.resource_id := by
      apply List.mem_filterMap.mpr
      exact ⟨(r, ralts), hr, by rw [if_pos hrIn]⟩
    have hnl := firstMax?_not_lt hft _ hmem
    rw [ht] at hnl
    rcases keyLtP_trichotomy (r.length, r) (pr.1.length, pr.1) with h3 | h3 | h3
    · exact h3
    · exact absurd (congrArg Prod.snd h3) hne'
    · exact absurd h3 hnl
  · intro a ha hane
    unfold generate_alt_text
    rw [if_neg (show ¬(e.content_description ≠ "" ∧ pyStrip e.content_description ≠ "") from
      fun hcc => hcc.1 hcd)]
    rw [if_pos hrid, hmid, ha]
    simp only [andThenTier]
    rw [if_neg hane]

/-- Witness for C3: the amended theorem applied at the counterexample tables
pins the selected key to `"cd"` and the label to `"second"`. -/
theorem c3_longest_then_lex_greatest_witness :
    generate_alt_text c3ExampleTables c3ExampleElement = some "second" := by
  obtain ⟨q, qalts, hmem, hin, hdom, heq, hgen⟩ :=
    c3_longest_then_lex_greatest c3ExampleTables c3ExampleElement rfl (by decide) (by decide)
      "ab" ["first"] (by decide) (by decide)
  have hq : q = "cd" ∧ qalts = ["second"] := by
    rcases List.mem_cons.mp hmem with h | h
    · exfalso
      obtain ⟨h1, -⟩ := Prod.mk.inj h
      subst h1
      have h3 := hdom "cd" ["second"] (by decide) (by decide) (by decide)
      exact absurd h3 (by decide)
    · rcases List.mem_cons.mp h with h2 | h2
      · exact Prod.mk.inj h2
      · exact absurd h2 (List.not_mem_nil _)
  obtain ⟨hq1, hq2⟩ := hq
  subst hq1
  subst hq2
  exact hgen "second" rfl (by decide)

/-- Rule files for the C6 counterexample: the first file is missing while all
later files are present with loadable contents. -/
def c6ExampleFiles : RuleFiles :=
  { resource_id_rules := none
    class_name_rules := some [("Button", ["버튼"])]
    text_pattern_rules := some []
    app_specific_rules := some []
    action_rules := some [] }

/-- C6 counterexample: with only the resource-id file missing, the class-name
file is present and non-empty, yet its table stays empty, because the single
try/except of `load_rules` abandons every later load after the first failure;
the claim predicts the class table would still load its contents. -/
theorem c6_missing_first_file_counterexample :
    c6ExampleFiles.resource_id_rules = none ∧
    c6ExampleFiles.class_name_rules = some [("Button", ["버튼"])] ∧
    (load_rules c6ExampleFiles).class_rules = [] ∧
    ([] : RuleMap) ≠ [("Button", ["버튼"])] := by
  refine ⟨rfl, rfl, rfl, by decide⟩

/-- C6 (amended): construction always succeeds and a missing file's table is
empty, but loading is sequential under one exception handler: the first
missing file aborts the sequence, so exactly the tables loaded before it keep
their file contents and that file's table and all later tables are empty. -/
theorem c6_sequential_prefix_loading :
    (∀ fs : RuleFiles, fs.resource_id_rules = none → load_rules fs = {}) ∧
    (∀ (fs : RuleFiles) rr, fs.resource_id_rules = some rr →
      fs.class_name_rules = none → load_rules fs = { resource_rules := rr }) ∧
    (∀ (fs : RuleFiles) rr cr, fs.resource_id_rules = some rr →
      fs.class_name_rules = some cr → fs.text_pattern_rules = none →
      load_rules fs = { resource_rules := rr, class_rules := cr }) ∧
    (∀ (fs : RuleFiles) rr cr tr, fs.resource_id_rules = some rr →
      fs.class_name_rules = some cr → fs.text_pattern_rules = some tr →
      fs.app_specific_rules = none →
      load_rules fs = { resource_rules := rr, class_rules := cr,
                        text_pattern_rules := tr }) ∧
    (∀ (fs : RuleFiles) rr cr tr apr, fs.resource_id_rules = some rr →
      fs.class_name_rules = some cr → fs.text_pattern_rules = some tr →
      fs.app_specific_rules = some apr → fs.action_rules = none →
      load_rules fs = { resource_rules := rr, class_rules := cr,
                        text_pattern_rules := tr, app_specific_rules := apr }) ∧
    (∀ (fs : RuleFiles) rr cr tr apr acr, fs.resource_id_rules = some rr →
      fs.class_name_rules = some cr → fs.text_pattern_rules = some tr →
      fs.app_specific_rules = some apr → fs.action_rules = some acr →
      load_rules fs = { resource_rules := rr, class_rules := cr,
                        text_pattern_rules := tr, app_specific_rules := apr,
                        action_rules := acr }) := by
  refine ⟨?_, ?_, ?_, ?_, ?_, ?_⟩
  · intro fs h1
    simp only [load_rules, h1]
  · intro fs rr h1 h2
    simp only [load_rules, h1, h2]
  · intro fs rr cr h1 h2 h3
    simp only [load_rules, h1, h2, h3]
  · intro fs rr cr tr h1 h2 h3 h4
    simp only [load_rules, h1, h2, h3, h4]
  · intro fs rr cr tr apr h1 h2 h3 h4 h5
    simp only [load_rules, h1, h2, h3, h4, h5]
  · intro fs rr cr tr apr acr h1 h2 h3 h4 h5
    simp only [load_rules, h1, h2, h3, h4, h5]

/-- Rule files for the C6 witness: first file present, second missing. -/
def c6WitnessFiles : RuleFiles :=
  { resource_id_rules := some [("backBtn", ["뒤로 가기"])] }

/-- Witness for C6: the amended theorem applied at `c6WitnessFiles`. -/
theorem c6_sequential_prefix_loading_witness :
    load_rules c6WitnessFiles = { resource_rules := [("backBtn", ["뒤로 가기"])] } :=
  c6_sequential_prefix_loading.2.1 c6WitnessFiles [("backBtn", ["뒤로 가기"])] rfl rfl

/-- The candidate-source concatenation exactly as claim C8 words it: the
resource-rules entry for the element's exact `resource_id`, then the
class-rules entry for the exact `class_name`, then every app-rules list whose
key is a substring of `app_context` — with no truthiness guard on the element
fields. This follows the claim's words, for comparison with
`alternatives_sources`, which is translated from the code (the code guards
each source on the corresponding element field being non-empty). -/
def claim_alternatives_sources (T : RuleTables) (e : UIElement) : List String :=
  (dget T.resource_rules e.resource_id).getD []
    ++ (dget T.class_rules e.class_name).getD []
    ++ ((T.app_specific_rules.filter (fun pr => pyIn pr.1 e.app_context)).map
        (fun pr => pr.2)).flatten

/-- Tables for the C8 counterexample: the empty string is a legal JSON-object
key of the resource table. -/
def c8ExampleTables : RuleTables :=
  { resource_rules := [("", ["x"])] }

/-- Element for the C8 counterexample: empty id, class and app context. -/
def c8ExampleElement : UIElement :=
  { resource_id := "", class_name := "" }

/-- C8 counterexample: the resource table has an entry for the element's
exact (empty) `resource_id`, so the claim's concatenation contains `"x"` and
the claimed result is `["x"]`; the code skips the lookup whenever the element
field is empty and returns `[]`. -/
theorem c8_empty_field_counterexample :
    dget c8ExampleTables.resource_rules c8ExampleElement.resource_id = some ["x"] ∧
    (pyDedup (claim_alternatives_sources c8ExampleTables c8ExampleElement)).take 5 = ["x"] ∧
    get_alternatives c8ExampleTables c8ExampleElement = [] ∧
    ([] : List String) ≠ ["x"] := by
  refine ⟨by decide, by decide, by decide, by decide⟩

/-- C8 (amended): `get_alternatives` returns at most 5 pairwise-distinct
strings in first-seen order over the concatenation of its three source lists,
where each source list contributes only when the corresponding element field
is non-empty: the resource-rules entry for a non-empty exact `resource_id`,
then the class-rules entry for a non-empty exact `class_name`, then — for a
non-empty `app_context` — every app-rules list whose key is a substring of
it. -/
theorem c8_alternatives_shape (T : RuleTables) (e : UIElement) :
    (get_alternatives T e).length ≤ 5 ∧
    (get_alternatives T e).Nodup ∧
    (get_alternatives T e).Sublist (alternatives_sources T e) ∧
    get_alternatives T e = (pyDedup (alternatives_sources T e)).take 5 := by
  refine ⟨?_, ?_, ?_, rfl⟩
  · exact List.length_take_le 5 _
  · exact List.Nodup.sublist (List.take_sublist 5 _) (pyDedup_nodup _)
  · exact (List.take_sublist 5 _).trans (pyDedup_sublist _)

/-- C10: `generate_alt_text` is total exactly when the candidate lists it can
index are non-empty. First conjunct: when every resource-rules and
class-rules candidate list is non-empty, no call raises. Remaining
conjuncts: an exact resource-id hit — or, with all earlier tiers empty, an
exact class-name hit, or failing that a simple (last-segment) class-name
hit — whose candidate list is empty makes the call raise (`none`) instead of
falling through to a lower tier. -/
theorem c10_empty_candidate_crash :
    (∀ (T : RuleTables) (e : UIElement),
      (∀ p alts, (p, alts) ∈ T.resource_rules → alts ≠ []) →
      (∀ p alts, (p, alts) ∈ T.class_rules → alts ≠ []) →
      generate_alt_text T e ≠ none) ∧
    (∀ (T : RuleTables) (e : UIElement),
      e.content_description = "" → e.resource_id ≠ "" →
      dget T.resource_rules e.resource_id = some [] →
      generate_alt_text T e = none) ∧
    (∀ (T : RuleTables) (e : UIElement),
      e.content_description = "" → e.resource_id = "" → e.app_context = "" →
      e.text = "" → e.class_name ≠ "" →
      dget T.class_rules e.class_name = some [] →
      generate_alt_text T e = none) ∧
    (∀ (T : RuleTables) (e : UIElement),
      e.content_description = "" → e.resource_id = "" → e.app_context = "" →
      e.text = "" → e.class_name ≠ "" →
      dget T.class_rules e.class_name = none →
      dget T.class_rules (lastSeg e.class_name) = some [] →
      generate_alt_text T e = none) := by
  refine ⟨?_, ?_, ?_, ?_⟩
  · intro T e h1 h2
    unfold generate_alt_text
    by_cases hcd : e.content_description ≠ "" ∧ pyStrip e.content_description ≠ ""
    · rw [if_pos hcd]
      simp
    · rw [if_neg hcd]
      refine andThenTier_ne_none ?_ (andThenTier_ne_none ?_ (andThenTier_ne_none ?_
        (andThenTier_ne_none ?_ (andThenTier_ne_none ?_ ?_))))
      · by_cases hr : e.resource_id ≠ ""
        · rw [if_pos hr]
          exact match_resource_id_ne_none _ _ h1
        · rw [if_neg hr]
          simp
      · simp
      · simp
      · by_cases hc : e.class_name ≠ ""
        · rw [if_pos hc]
          exact match_class_name_ne_none _ _ h2
        · rw [if_neg hc]
          simp
      · simp
      · simp
  · intro T e hcd hrid hlook
    unfold generate_alt_text
    rw [if_neg (show ¬(e.content_description ≠ "" ∧ pyStrip e.content_description ≠ "") from
      fun hc => hc.1 hcd)]
    rw [if_pos hrid]
    have hmr : match_resource_id T.resource_rules e.resource_id = none := by
      unfold match_resource_id
      rw [hlook]
      rfl
    rw [hmr]
    rfl
  · intro T e hcd hrid happ htext hcls hlook
    unfold generate_alt_text
    rw [if_neg (show ¬(e.content_description ≠ "" ∧ pyStrip e.content_description ≠ "") from
      fun hc => hc.1 hcd)]
    rw [if_neg (show ¬(e.resource_id ≠ "") from fun hc => hc hrid)]
    rw [if_neg (show ¬(e.app_context ≠ "") from fun hc => hc happ)]
    rw [if_neg (show ¬(e.text ≠ "") from fun hc => hc htext)]
    rw [if_pos hcls]
    have hmc : match_class_name T.class_rules e.class_name = none := by
      unfold match_class_name
      rw [hlook]
      rfl
    rw [hmc]
    rfl
  · intro T e hcd hrid happ htext hcls hexact hsimple
    unfold generate_alt_text
    rw [if_neg (show ¬(e.content_description ≠ "" ∧ pyStrip e.content_description ≠ "") from
      fun hc => hc.1 hcd)]
    rw [if_neg (show ¬(e.resource_id ≠ "") from fun hc => hc hrid)]
    rw [if_neg (show ¬(e.app_context ≠ "") from fun hc => hc happ)]
    rw [if_neg (show ¬(e.text ≠ "") from fun hc => hc htext)]
    rw [if_pos hcls]
    have hmc : match_class_name T.class_rules e.class_name = none := by
      unfold match_class_name
      rw [hexact, hsimple]
      rfl
    rw [hmc]
    rfl

/-- Tables for the C10 crash witness: an exact resource key mapped to the
empty candidate list. -/
def c10ExampleTables : RuleTables :=
  { resource_rules := [("like_icon", [])] }

/-- Element for the C10 witness. -/
def c10ExampleElement : UIElement :=
  { resource_id := "like_icon", class_name := "ImageView" }

/-- Tables for the C10 totality witness: the same key with a non-empty
candidate list. -/
def c10TotalTables : RuleTables :=
  { resource_rules := [("like_icon", ["좋아요"])] }

/-- Tables for the C10 simple-class-key witness: only the last segment of the
element's class name is a key, mapped to the empty candidate list. -/
def c10SimpleTables : RuleTables :=
  { class_rules := [("Button", [])] }

/-- Element for the C10 simple-class-key witness: its fully qualified class
name is no exact key, its last segment is. -/
def c10SimpleElement : UIElement :=
  { resource_id := "", class_name := "android.widget.Button" }

/-- Witness for C10: the same element crashes on the empty candidate list of
an exact resource key and succeeds once every candidate list is non-empty;
an empty candidate list under a simple (last-segment) class key crashes
too. -/
theorem c10_empty_candidate_crash_witness :
    generate_alt_text c10ExampleTables c10ExampleElement = none ∧
    generate_alt_text c10SimpleTables c10SimpleElement = none ∧
    generate_alt_text c10TotalTables c10ExampleElement ≠ none := by
  refine ⟨?_, ?_, ?_⟩
  · exact c10_empty_candidate_crash.2.1 c10ExampleTables c10ExampleElement rfl
      (by decide) (by decide)
  · exact c10_empty_candidate_crash.2.2.2 c10SimpleTables c10SimpleElement rfl rfl rfl rfl
      (by decide) (by decide) (by decide)
  · refine c10_empty_candidate_crash.1 c10TotalTables c10ExampleElement ?_ ?_
    · intro p alts hmem
      simp only [c10TotalTables, List.mem_singleton] at hmem
      obtain ⟨-, h2⟩ := Prod.mk.inj hmem
      subst h2
      simp
    · intro p alts hmem
      simp only [c10TotalTables] at hmem
      exact absurd hmem (List.not_mem_nil _)

/-- C5 (amended): for every parsed Element Record, `parent_context` is always
the parent's simple class name, a colon, and the parent's normalized id — the
colon is present even for an empty id and the parent's text attribute is
never used — while each `sibling_context` entry uses class:text when the
sibling has text, else class:id when it has a normalized id, else the bare
simple class name, space-joined over all other children of the parent in
document order; a root-level record has empty parent and sibling context. -/
theorem c5_context_formatting :
    (∀ (parent : XNode) (i : Nat) (n : XNode) (e : UIElement),
      parse_element (some (parent, i)) n = some e →
      e.parent_context =
        lastSeg parent.tag ++ ":" ++ normalize_resource_id (xget parent "android:id" "") ∧
      e.sibling_context =
        joinSpace ((parent.children.enum.filter (fun z => z.1 != i)).map
          (fun z => fmtSibling z.2))) ∧
    (∀ (n : XNode) (e : UIElement), parse_element none n = some e →
      e.parent_context = "" ∧ e.sibling_context = "") ∧
    (∀ s : XNode, xget s "android:text" "" ≠ "" →
      fmtSibling s = lastSeg s.tag ++ ":" ++ xget s "android:text" "") ∧
    (∀ s : XNode, xget s "android:text" "" = "" →
      normalize_resource_id (xget s "android:id" "") ≠ "" →
      fmtSibling s = lastSeg s.tag ++ ":" ++ normalize_resource_id (xget s "android:id" "")) ∧
    (∀ s : XNode, xget s "android:text" "" = "" →
      normalize_resource_id (xget s "android:id" "") = "" →
      fmtSibling s = lastSeg s.tag) := by
  refine ⟨?_, ?_, ?_, ?_, ?_⟩
  · intro parent i n e h
    unfold parse_element at h
    by_cases hui : is_ui_element n
    · rw [if_pos hui] at h
      cases h
      exact ⟨rfl, rfl⟩
    · rw [if_neg hui] at h
      exact Option.noConfusion h
  · intro n e h
    unfold parse_element at h
    by_cases hui : is_ui_element n
    · rw [if_pos hui] at h
      cases h
      exact ⟨rfl, rfl⟩
    · rw [if_neg hui] at h
      exact Option.noConfusion h
  · intro s h
    simp only [fmtSibling]
    rw [if_pos h]
  · intro s h1 h2
    simp only [fmtSibling]
    rw [if_neg (by simp [h1]), if_pos h2]
  · intro s h1 h2
    simp only [fmtSibling]
    rw [if_neg (by simp [h1]), if_neg (by simp [h2])]

/-- Parent node for the C5 counterexample: it carries a text attribute and no
id. -/
def c5ExampleParent : XNode :=
  XNode.mk "FrameLayout" [("android:text", "Hi")] [XNode.mk "ImageView" [] []]

/-- Child node for the C5 counterexample. -/
def c5ExampleChild : XNode :=
  XNode.mk "ImageView" [] []

/-- C5 counterexample: the claim's formatting rule (text preferred) predicts
parent context `"FrameLayout:Hi"`, but `_get_parent_context` never reads the
parent's text and always emits class, colon, id — here `"FrameLayout:"` with
the colon and an empty id. -/
theorem c5_parent_text_counterexample :
    xget c5ExampleParent "android:text" "" = "Hi" ∧
    xget c5ExampleParent "android:id" "" = "" ∧
    (parse_element (some (c5ExampleParent, 0)) c5ExampleChild).map
      (fun e => e.parent_context) = some "FrameLayout:" ∧
    ("FrameLayout:" : String) ≠ "FrameLayout:Hi" := by
  refine ⟨by decide, by decide, by decide, by decide⟩

/-- Parent node for the C5 witness: an id and two children, the second with
text. -/
def c5WitnessParent : XNode :=
  XNode.mk "LinearLayout" [("android:id", "@+id/rootBox")]
    [XNode.mk "ImageView" [] [], XNode.mk "a.TextView" [("android:text", "Hello")] []]

/-- Child node for the C5 witness: index 0 under `c5WitnessParent`. -/
def c5WitnessChild : XNode :=
  XNode.mk "ImageView" [] []

/-- The Element Record that `parse_element` produces for the C5 witness. -/
def c5WitnessElement : UIElement :=
  { resource_id := "", class_name := "ImageView",
    parent_context := "LinearLayout:rootBox", sibling_context := "TextView:Hello",
    app_context := "com.example.app.MainActivity" }

/-- Witness for C5: the amended theorem applied to the concrete parsed
element. -/
theorem c5_context_formatting_witness :
    parse_element (some (c5WitnessParent, 0)) c5WitnessChild = some c5WitnessElement ∧
    c5WitnessElement.parent_context =
      lastSeg c5WitnessParent.tag ++ ":" ++
        normalize_resource_id (xget c5WitnessParent "android:id" "") ∧
    c5WitnessElement.sibling_context =
      joinSpace ((c5WitnessParent.children.enum.filter (fun z => z.1 != 0)).map
        (fun z => fmtSibling z.2)) := by
  have h := c5_context_formatting.1 c5WitnessParent 0 c5WitnessChild c5WitnessElement (by decide)
  exact ⟨by decide, h.1, h.2⟩
